import Mathlib

/-!
Shallow embedding of the VR audio switcher (vr_audio_switcher.py) and proofs
about its mode controller, audio router, presence detector, engine client,
orchestrator callbacks and startup restore path.

External effects (subprocess invocations, native-library calls, process
enumeration) are modelled by explicit environment records whose fields give
the outcome each external call would return; every function returns, next to
its Python return value, the list of external commands it issued.
-/

-- ===========================================================================
-- UserMode / AudioOutput (class UserMode, class AudioOutput)
-- ===========================================================================

inductive UserMode where
  | DESKTOP
  | AUTO
  | VR
  | SILENT_VR
deriving DecidableEq, Repr, Fintype

inductive AudioOutput where
  | DESKTOP
  | VR
deriving DecidableEq, Repr

-- ===========================================================================
-- ModeController (VRAudioSwitcher._desired_output / _desired_mic).
-- `vrPresent` stands for `self.detector.is_steamvr_running()`.
-- ===========================================================================

def desiredOutput (mode : UserMode) (vrPresent : Bool) : AudioOutput :=
  if mode = UserMode.DESKTOP then AudioOutput.DESKTOP
  else if mode = UserMode.VR ∨ mode = UserMode.SILENT_VR then AudioOutput.VR
  else if vrPresent then AudioOutput.VR else AudioOutput.DESKTOP

def desiredMic (mode : UserMode) : Bool :=
  mode = UserMode.VR

-- ===========================================================================
-- AudioSwitcher (wraps svcl.exe)
-- ===========================================================================

/-- Embedding of `AudioSwitcher.SYSTEM_EXCLUDE` (the fixed system exclusion list). -/
def SYSTEM_EXCLUDE : List String :=
  ["vrchat.exe", "vrserver.exe", "vrmonitor.exe", "vrwebhelper.exe",
   "steamwebhelper.exe", "voicemeeterpro.exe", "voicemeeter.exe",
   "voicemeeter8.exe", "voicemeeter8x64.exe", "svchost.exe",
   "rundll32.exe", "audiodg.exe", "dwm.exe"]

/-- Configuration fields of `AudioSwitcher.__init__`: `vr_device`,
whether `"exclude_processes" in config` (multi-target mode), the lowercased
user exclusion list, and the legacy `target_process`. -/
structure AudioSwitcherCfg where
  vr_device : String
  multi_target : Bool
  user_exclude : List String
  target : String

/-- Outcomes of the external calls `switch_to` can make:
`audio_apps` is the set returned by `_enumerate_audio_apps`, `svcl_ok d p`
whether `_svcl_set d p` reports success, `running p` whether
`is_process_running p` holds. -/
structure AudioEnv where
  audio_apps : List String
  svcl_ok : String → String → Bool
  running : String → Bool

/-- One invocation of the external routing utility svcl.exe. -/
inductive SvclCall where
  | enumerate
  | setAppDefault (device : String) (process : String)
deriving DecidableEq, Repr

def excludedSet (cfg : AudioSwitcherCfg) : List String :=
  SYSTEM_EXCLUDE ++ cfg.user_exclude

/-- Embedding of `AudioSwitcher.switch_to`: returns the Python return value with
the svcl invocations issued. -/
def switch_to (cfg : AudioSwitcherCfg) (env : AudioEnv) (output : AudioOutput) :
    Bool × List SvclCall :=
  let device := if output = AudioOutput.VR then cfg.vr_device
                else "DefaultRenderDevice"
  if cfg.multi_target = false then
    -- Legacy single-target mode
    if env.running cfg.target = false then (false, [])
    else (env.svcl_ok device cfg.target, [SvclCall.setAppDefault device cfg.target])
  else
    -- Multi-target: enumerate and switch all non-excluded audio apps
    let targets := env.audio_apps.filter (fun p => decide (p ∉ excludedSet cfg))
    if targets = [] then (false, [SvclCall.enumerate])
    else (decide (0 < targets.countP (fun p => env.svcl_ok device p)),
          SvclCall.enumerate :: targets.map (fun p => SvclCall.setAppDefault device p))

/-- The per-process redirect commands (device, process) inside a call list. -/
def redirectsOf (cs : List SvclCall) : List (String × String) :=
  cs.filterMap (fun c =>
    match c with
    | SvclCall.setAppDefault d p => some (d, p)
    | SvclCall.enumerate => none)

-- ===========================================================================
-- SteamVRDetector (polling + debounce)
-- ===========================================================================

/-- Detector state: `_vr_running` (None before any reported value) and
`_last_change` (0.0 initially, poll timestamps afterwards). -/
structure DetectorState where
  vrRunning : Option Bool
  lastChange : Int
deriving DecidableEq, Repr

def initDetector : DetectorState := ⟨none, 0⟩

/-- One iteration of `SteamVRDetector._poll` at time `now` with raw presence
`raw`; returns the new state and the `on_change` invocations made (0 or 1). -/
def pollStep (debounce : Int) (s : DetectorState) (now : Int) (raw : Bool) :
    DetectorState × List Bool :=
  if some raw ≠ s.vrRunning then
    if debounce ≤ now - s.lastChange then (⟨some raw, now⟩, [raw])
    else (s, [])
  else (s, [])

/-- Run the poll loop over a list of (time, raw presence) observations,
collecting every `on_change` invocation in order. -/
def pollRun (debounce : Int) (s : DetectorState) (polls : List (Int × Bool)) :
    DetectorState × List Bool :=
  match polls with
  | [] => (s, [])
  | q :: rest =>
      let c := pollStep debounce s q.1 q.2
      let r := pollRun debounce c.1 rest
      (r.1, c.2 ++ r.2)

-- ===========================================================================
-- C1
-- ===========================================================================

/-- C1: for every (UserMode, vrPresent) pair, `_desired_output` returns
Desktop when the mode is Desktop, VR for modes VR and SilentVR, and for Auto
follows VR presence; `_desired_mic` is true exactly for mode VR. -/
theorem C1_mode_controller :
    (∀ p, desiredOutput UserMode.DESKTOP p = AudioOutput.DESKTOP)
    ∧ (∀ p, desiredOutput UserMode.VR p = AudioOutput.VR)
    ∧ (∀ p, desiredOutput UserMode.SILENT_VR p = AudioOutput.VR)
    ∧ desiredOutput UserMode.AUTO true = AudioOutput.VR
    ∧ desiredOutput UserMode.AUTO false = AudioOutput.DESKTOP
    ∧ (∀ m, desiredMic m = true ↔ m = UserMode.VR) := by
  decide

-- ===========================================================================
-- C2 and C10: switch_to
-- ===========================================================================

theorem switch_to_multi_eq (cfg : AudioSwitcherCfg) (env : AudioEnv)
    (output : AudioOutput) (hm : cfg.multi_target = true) :
    switch_to cfg env output =
      (decide (0 < (env.audio_apps.filter (fun p => decide (p ∉ excludedSet cfg))).countP
          (fun p => env.svcl_ok
            (if output = AudioOutput.VR then cfg.vr_device else "DefaultRenderDevice") p)),
       SvclCall.enumerate ::
         (env.audio_apps.filter (fun p => decide (p ∉ excludedSet cfg))).map
           (fun p => SvclCall.setAppDefault
             (if output = AudioOutput.VR then cfg.vr_device else "DefaultRenderDevice") p)) := by
  simp only [switch_to, hm, Bool.true_eq_false, if_false]
  by_cases he : env.audio_apps.filter (fun p => decide (p ∉ excludedSet cfg)) = []
  · rw [if_pos he, he]
    simp
  · rw [if_neg he]

theorem redirectsOf_enum_map (device : String) (l : List String) :
    redirectsOf (SvclCall.enumerate :: l.map (fun p => SvclCall.setAppDefault device p)) =
      l.map (fun p => (device, p)) := by
  induction l with
  | nil => rfl
  | cons a t ih => simpa [redirectsOf] using ih

/-- C2: in multi-target mode, `switch_to` issues exactly one redirect per
process in the enumerated set minus (system exclusions ∪ user exclusions),
every redirect targets the resolved device, and the result is true iff at
least one redirect command succeeded. -/
theorem C2_multi_target_switch (cfg : AudioSwitcherCfg) (env : AudioEnv)
    (output : AudioOutput)
    (hm : cfg.multi_target = true) (hnd : env.audio_apps.Nodup) :
    (∀ p, p ∈ (redirectsOf (switch_to cfg env output).2).map Prod.snd ↔
        p ∈ env.audio_apps ∧ p ∉ SYSTEM_EXCLUDE ∧ p ∉ cfg.user_exclude)
    ∧ ((redirectsOf (switch_to cfg env output).2).map Prod.snd).Nodup
    ∧ (∀ c ∈ redirectsOf (switch_to cfg env output).2,
        c.1 = (if output = AudioOutput.VR then cfg.vr_device else "DefaultRenderDevice"))
    ∧ ((switch_to cfg env output).1 = true ↔
        ∃ p ∈ (redirectsOf (switch_to cfg env output).2).map Prod.snd,
          env.svcl_ok
            (if output = AudioOutput.VR then cfg.vr_device else "DefaultRenderDevice")
            p = true) := by
  rw [switch_to_multi_eq cfg env output hm]
  rw [redirectsOf_enum_map]
  constructor
  · intro p
    simp [List.mem_filter, excludedSet, not_or]
  constructor
  · have : ((env.audio_apps.filter (fun p => decide (p ∉ excludedSet cfg))).map
        (fun p => ((if output = AudioOutput.VR then cfg.vr_device else "DefaultRenderDevice"), p))).map
          Prod.snd = env.audio_apps.filter (fun p => decide (p ∉ excludedSet cfg)) := by
      simp
    rw [this]
    exact hnd.filter _
  constructor
  · intro c hc
    rw [List.mem_map] at hc
    obtain ⟨p, _, hp⟩ := hc
    subst hp
    rfl
  · simp [List.countP_pos_iff]

def exampleCfg : AudioSwitcherCfg :=
  ⟨"Headphones (Valve Index)", true, ["vrchat.exe"], "chrome.exe"⟩

def exampleEnv : AudioEnv :=
  ⟨["spotify.exe", "discord.exe", "vrchat.exe"], fun _ _ => true, fun _ => false⟩

/-- Witness for C2 at the spec's example scenario: exclusions
`["vrchat.exe"]`, audio apps `{spotify.exe, discord.exe, vrchat.exe}`;
exactly spotify.exe and discord.exe are redirected. -/
theorem C2_multi_target_switch_witness :
    exampleCfg.multi_target = true ∧ exampleEnv.audio_apps.Nodup
    ∧ ((∀ p, p ∈ (redirectsOf (switch_to exampleCfg exampleEnv AudioOutput.VR).2).map Prod.snd ↔
        p ∈ exampleEnv.audio_apps ∧ p ∉ SYSTEM_EXCLUDE ∧ p ∉ exampleCfg.user_exclude)
    ∧ ((redirectsOf (switch_to exampleCfg exampleEnv AudioOutput.VR).2).map Prod.snd).Nodup
    ∧ (∀ c ∈ redirectsOf (switch_to exampleCfg exampleEnv AudioOutput.VR).2,
        c.1 = (if AudioOutput.VR = AudioOutput.VR then exampleCfg.vr_device
               else "DefaultRenderDevice"))
    ∧ ((switch_to exampleCfg exampleEnv AudioOutput.VR).1 = true ↔
        ∃ p ∈ (redirectsOf (switch_to exampleCfg exampleEnv AudioOutput.VR).2).map Prod.snd,
          exampleEnv.svcl_ok
            (if AudioOutput.VR = AudioOutput.VR then exampleCfg.vr_device
             else "DefaultRenderDevice") p = true))
    ∧ (redirectsOf (switch_to exampleCfg exampleEnv AudioOutput.VR).2).map Prod.snd =
        ["spotify.exe", "discord.exe"] :=
  ⟨rfl, by decide,
   C2_multi_target_switch exampleCfg exampleEnv AudioOutput.VR rfl (by decide),
   by decide⟩

/-- C10: in legacy single-target mode, when the configured target process is
not running, `switch_to` returns false and issues no svcl invocation. -/
theorem C10_legacy_not_running (cfg : AudioSwitcherCfg) (env : AudioEnv)
    (output : AudioOutput)
    (hm : cfg.multi_target = false) (hr : env.running cfg.target = false) :
    switch_to cfg env output = (false, []) := by
  simp [switch_to, hm, hr]

def legacyCfg : AudioSwitcherCfg := ⟨"VR Device", false, [], "chrome.exe"⟩

def legacyEnv : AudioEnv := ⟨[], fun _ _ => true, fun _ => false⟩

/-- Witness for C10: legacy config targeting chrome.exe with no such process
running yields `(false, [])`. -/
theorem C10_legacy_not_running_witness :
    legacyCfg.multi_target = false ∧ legacyEnv.running legacyCfg.target = false
    ∧ switch_to legacyCfg legacyEnv AudioOutput.DESKTOP = (false, []) :=
  ⟨rfl, rfl, C10_legacy_not_running legacyCfg legacyEnv AudioOutput.DESKTOP rfl rfl⟩

-- ===========================================================================
-- C7: desktop-target device resolution
-- ===========================================================================

/-- C7 (amended): when switching to the Desktop target, every redirect issued
uses the fixed operating-system default render device identifier
`"DefaultRenderDevice"`; no device enumeration or tier classification takes
place in this code. -/
theorem C7_desktop_uses_default_device (cfg : AudioSwitcherCfg) (env : AudioEnv)
    (c : String × String)
    (hc : c ∈ redirectsOf (switch_to cfg env AudioOutput.DESKTOP).2) :
    c.1 = "DefaultRenderDevice" := by
  by_cases hm : cfg.multi_target = true
  · rw [switch_to_multi_eq cfg env AudioOutput.DESKTOP hm, redirectsOf_enum_map,
      List.mem_map] at hc
    obtain ⟨p, _, hp⟩ := hc
    subst hp
    rfl
  · rw [Bool.not_eq_true] at hm
    have hx : switch_to cfg env AudioOutput.DESKTOP = (false, []) ∨
        switch_to cfg env AudioOutput.DESKTOP =
          (env.svcl_ok "DefaultRenderDevice" cfg.target,
           [SvclCall.setAppDefault "DefaultRenderDevice" cfg.target]) := by
      by_cases hr : env.running cfg.target = false
      · exact Or.inl (by simp [switch_to, hm, hr])
      · exact Or.inr (by simp [switch_to, hm, hr])
    rcases hx with h | h <;> rw [h] at hc
    · simp [redirectsOf] at hc
    · simp [redirectsOf] at hc
      rw [hc]

def c7Cfg : AudioSwitcherCfg := ⟨"Headphones (Valve Index)", true, [], "chrome.exe"⟩

def c7Env : AudioEnv := ⟨["spotify.exe"], fun _ _ => true, fun _ => true⟩

/-- C7 is false of this code: in the claim's scenario (an HDMI-named render
device present, a headset-named device present, no speaker-named device) the
redirect issued for the Desktop target uses the fixed identifier
`"DefaultRenderDevice"` — never the HDMI device's name — because `switch_to`
resolves the desktop target to that constant without enumerating devices. -/
theorem C7_counterexample :
    redirectsOf (switch_to c7Cfg c7Env AudioOutput.DESKTOP).2 =
      [("DefaultRenderDevice", "spotify.exe")]
    ∧ "DefaultRenderDevice" ≠ "LG TV (NVIDIA High Definition Audio)" := by
  decide

/-- Witness for C7 (amended) at a concrete redirect. -/
theorem C7_desktop_uses_default_device_witness :
    ("DefaultRenderDevice", "spotify.exe") ∈
        redirectsOf (switch_to c7Cfg c7Env AudioOutput.DESKTOP).2
    ∧ ("DefaultRenderDevice", "spotify.exe").1 = "DefaultRenderDevice" :=
  ⟨by decide,
   C7_desktop_uses_default_device c7Cfg c7Env ("DefaultRenderDevice", "spotify.exe")
     (by decide)⟩

-- ===========================================================================
-- C3 and C4: detector debounce behaviour
-- ===========================================================================

theorem pollStep_no_report (debounce : Int) (s : DetectorState) (now : Int)
    (raw : Bool) (h : s.vrRunning = some raw ∨ now - s.lastChange < debounce) :
    pollStep debounce s now raw = (s, []) := by
  unfold pollStep
  rcases h with h | h
  · rw [if_neg (by simp [h])]
  · by_cases hr : some raw ≠ s.vrRunning
    · rw [if_pos hr, if_neg (not_le.mpr h)]
    · rw [if_neg hr]

theorem pollRun_no_report (debounce T : Int) (v : Bool)
    (polls : List (Int × Bool))
    (h : ∀ p ∈ polls, p.2 = v ∨ p.1 - T < debounce) :
    pollRun debounce ⟨some v, T⟩ polls = (⟨some v, T⟩, []) := by
  induction polls with
  | nil => rfl
  | cons q rest ih =>
      have hq := h q (List.mem_cons_self q rest)
      have hstep : pollStep debounce ⟨some v, T⟩ q.1 q.2 = (⟨some v, T⟩, []) := by
        apply pollStep_no_report
        rcases hq with h1 | h1
        · exact Or.inl (by rw [h1])
        · exact Or.inr h1
      have ih' := ih (fun p hp => h p (List.mem_cons_of_mem q hp))
      simp [pollRun, hstep, ih']

theorem pollRun_reports_once (debounce T : Int) (v b : Bool)
    (polls : List (Int × Bool)) (hvb : b ≠ v)
    (hall : ∀ p ∈ polls, p.2 = b)
    (hex : ∃ p ∈ polls, debounce ≤ p.1 - T) :
    (pollRun debounce ⟨some v, T⟩ polls).2 = [b] := by
  induction polls with
  | nil => simp at hex
  | cons q rest ih =>
      have hqb : q.2 = b := hall q (List.mem_cons_self q rest)
      by_cases hfire : debounce ≤ q.1 - T
      · have hne : some q.2 ≠ (⟨some v, T⟩ : DetectorState).vrRunning := by
          simp [hqb, hvb]
        have hstep : pollStep debounce ⟨some v, T⟩ q.1 q.2 = (⟨some b, q.1⟩, [b]) := by
          unfold pollStep
          rw [if_pos hne, if_pos hfire, hqb]
        have hrest : pollRun debounce ⟨some b, q.1⟩ rest = (⟨some b, q.1⟩, []) :=
          pollRun_no_report debounce q.1 b rest
            (fun p hp => Or.inl (hall p (List.mem_cons_of_mem q hp)))
        simp [pollRun, hstep, hrest]
      · have hstep : pollStep debounce ⟨some v, T⟩ q.1 q.2 = (⟨some v, T⟩, []) :=
          pollStep_no_report debounce ⟨some v, T⟩ q.1 q.2
            (Or.inr (lt_of_not_le hfire))
        have hex' : ∃ p ∈ rest, debounce ≤ p.1 - T := by
          obtain ⟨p, hp, hd⟩ := hex
          rcases List.mem_cons.mp hp with rfl | hp'
          · exact absurd hd hfire
          · exact ⟨p, hp', hd⟩
        have ih' := ih (fun p hp => hall p (List.mem_cons_of_mem q hp)) hex'
        simp [pollRun, hstep, ih']

/-- C3 (amended): from a reported stable value `v` at time `T`, (1) a
flip-flop whose differing polls all occur strictly within `debounce` of `T`
never invokes the callback and leaves the state unchanged, and (2) a change
to `b ≠ v` holding at every poll, with some poll at least `debounce` after
`T`, invokes the callback exactly once (with `b`).  The trigger condition is
elapsed time since the previous *reported* transition — not, as the claim
states, the raw value having differed for `debounce` (see the
counterexample). -/
theorem C3_debounce (debounce T : Int) (v b : Bool)
    (flips sustained : List (Int × Bool))
    (hflip : ∀ p ∈ flips, p.2 = v ∨ p.1 - T < debounce)
    (hvb : b ≠ v)
    (hsus : ∀ p ∈ sustained, p.2 = b)
    (hlong : ∃ p ∈ sustained, debounce ≤ p.1 - T) :
    pollRun debounce ⟨some v, T⟩ flips = (⟨some v, T⟩, [])
    ∧ (pollRun debounce ⟨some v, T⟩ sustained).2 = [b] :=
  ⟨pollRun_no_report debounce T v flips hflip,
   pollRun_reports_once debounce T v b sustained hvb hsus hlong⟩

/-- Witness for C3 (amended): debounce 5, stable `false` reported at 100; the
flip-flop `[(102, true), (104, false)]` fires nothing; the sustained change
`[(102, true), (107, true)]` fires exactly once. -/
theorem C3_debounce_witness :
    (∀ p ∈ [((102 : Int), true), (104, false)], p.2 = false ∨ p.1 - 100 < 5)
    ∧ (true ≠ false)
    ∧ (∀ p ∈ [((102 : Int), true), (107, true)], p.2 = true)
    ∧ (∃ p ∈ [((102 : Int), true), (107, true)], (5 : Int) ≤ p.1 - 100)
    ∧ (pollRun 5 ⟨some false, 100⟩ [(102, true), (104, false)] = (⟨some false, 100⟩, [])
       ∧ (pollRun 5 ⟨some false, 100⟩ [(102, true), (107, true)]).2 = [true]) :=
  ⟨by decide, by decide, by decide, by decide,
   C3_debounce 5 100 false true [(102, true), (104, false)] [(102, true), (107, true)]
     (by decide) (by decide) (by decide) (by decide)⟩

/-- C3 as stated is false of the code: with debounce 5, after the stable
value `false` is reported at time 100, a poll at 116 still agrees with the
reported state, yet the poll at 120 — where the raw value has differed from
the reported state for at most 4 < 5 seconds — immediately reports a
transition, because the code only checks elapsed time since the previous
reported transition. -/
theorem C3_counterexample :
    pollRun 5 initDetector [(100, false), (116, false), (120, true)] =
      (⟨some true, 120⟩, [false, true])
    ∧ (120 - 116 : Int) < 5 := by
  decide

/-- C4 is false of the code: the very first poll (here at time 100, raw
`true`, debounce 5, from the initial state with `_last_change = 0.0`) does
invoke the change callback, because `time.time() - 0.0 ≥ debounce` holds. -/
theorem C4_counterexample :
    pollRun 5 initDetector [(100, true)] = (⟨some true, 100⟩, [true]) := by
  decide

/-- C4 (amended): the first poll does not merely establish a baseline — when
at least `debounce` has elapsed past the initial `_last_change` value 0 (in
the program, `time.time()` makes this always true), the first poll both sets
the baseline and invokes the callback with the initial raw value; otherwise
it neither sets the baseline nor invokes the callback. -/
theorem C4_first_poll (debounce now : Int) (raw : Bool) :
    pollStep debounce initDetector now raw =
      if debounce ≤ now then (⟨some raw, now⟩, [raw]) else (initDetector, []) := by
  simp only [pollStep, initDetector]
  rw [if_pos (by simp : (some raw ≠ (none : Option Bool)))]
  norm_num

-- ===========================================================================
-- VoiceMeeterRemote (engine client)
-- ===========================================================================

/-- Outcome of one native-library call: it either raised an exception or
returned an integer status code. -/
inductive NativeCall where
  | exn
  | ret (code : Int)
deriving DecidableEq, Repr

/-- Connection state of `VoiceMeeterRemote`: whether `self._dll` is loaded
and whether `self._logged_in` holds. -/
structure VMState where
  dllLoaded : Bool
  loggedIn : Bool
deriving DecidableEq, Repr

/-- Outcomes the native layer would produce for each call the client makes:
`dllFound` models `find_dll()` succeeding, `dllLoadOk` the `WinDLL`
constructor not raising, `login` the `VBVMR_Login` call, `setFloat` the
`VBVMR_SetParameterFloat` call, `getString` the `VBVMR_GetParameterStringA`
call with `getStringVal` the decoded, stripped buffer contents on status 0. -/
structure VMEnv where
  dllFound : Bool
  dllLoadOk : Bool
  login : NativeCall
  setFloat : NativeCall
  getString : NativeCall
  getStringVal : String
deriving DecidableEq, Repr

/-- Embedding of `VoiceMeeterRemote._ensure_connected`. -/
def ensure_connected (env : VMEnv) (s : VMState) : Bool × VMState :=
  if s.loggedIn then (true, s)
  else if s.dllLoaded = false ∧ env.dllFound = false then (false, s)
  else if s.dllLoaded = false ∧ env.dllLoadOk = false then (false, s)
  else
    match env.login with
    | NativeCall.exn => (false, ⟨true, false⟩)
    | NativeCall.ret r =>
        if r = 0 ∨ r = 1 then (true, ⟨true, true⟩) else (false, ⟨true, false⟩)

/-- Embedding of `VoiceMeeterRemote.set_strip_b1`: on a raised native exception the
connection is marked stale; on a nonzero status code it is not. -/
def set_strip_b1 (env : VMEnv) (s : VMState) : Bool × VMState :=
  let c := ensure_connected env s
  if c.1 = false then (false, c.2)
  else
    match env.setFloat with
    | NativeCall.exn => (false, { c.2 with loggedIn := false })
    | NativeCall.ret r => if r = 0 then (true, c.2) else (false, c.2)

/-- Embedding of `VoiceMeeterRemote.get_string_param`. -/
def get_string_param (env : VMEnv) (s : VMState) : Option String × VMState :=
  let c := ensure_connected env s
  if c.1 = false then (none, c.2)
  else
    match env.getString with
    | NativeCall.exn => (none, { c.2 with loggedIn := false })
    | NativeCall.ret r =>
        if r = 0 then
          (if env.getStringVal = "" then none else some env.getStringVal, c.2)
        else (none, c.2)

-- ===========================================================================
-- C5
-- ===========================================================================

def c5EnvRet1 : VMEnv :=
  ⟨true, true, NativeCall.ret 0, NativeCall.ret 1, NativeCall.ret 1, ""⟩

/-- C5 is false of this code: with a live connection, a
`VBVMR_SetParameterFloat` call that fails by returning the nonzero status 1
makes `set_strip_b1` return failure while leaving `_logged_in` true, and the
next `_ensure_connected` short-circuits on the still-set flag instead of
re-establishing the connection; only a raised exception marks the connection
stale. -/
theorem C5_counterexample :
    (set_strip_b1 c5EnvRet1 ⟨true, true⟩).1 = false
    ∧ (set_strip_b1 c5EnvRet1 ⟨true, true⟩).2.loggedIn = true
    ∧ ensure_connected c5EnvRet1 (set_strip_b1 c5EnvRet1 ⟨true, true⟩).2 =
        (true, (set_strip_b1 c5EnvRet1 ⟨true, true⟩).2) := by
  decide

theorem ensure_connected_login_required (env : VMEnv) (s : VMState)
    (hs : s.loggedIn = false)
    (hd : (ensure_connected env s).2.loggedIn = true) :
    env.login = NativeCall.ret 0 ∨ env.login = NativeCall.ret 1 := by
  unfold ensure_connected at hd
  rcases hlogin : env.login with _ | r <;> rw [hlogin] at hd
  · split_ifs at hd <;> simp_all
  · by_cases hr01 : r = 0 ∨ r = 1
    · rcases hr01 with h0 | h1r
      · exact Or.inl (by rw [h0])
      · exact Or.inr (by rw [h1r])
    · exfalso
      split_ifs at hd <;> simp_all

/-- C5 (amended): a getter/setter call that fails because the native call
raised an exception returns failure and marks the connection stale
(`_logged_in := false`), and from a stale state the connection can only
become logged-in again through a successful fresh `VBVMR_Login`; a call that
fails with a nonzero status code returns failure but leaves the connection
state exactly as `_ensure_connected` left it. -/
theorem C5_stale_marking (env envr : VMEnv) (s sr : VMState) (r : Int)
    (h : (ensure_connected env s).1 = true)
    (hsf : env.setFloat = NativeCall.exn)
    (hgs : env.getString = NativeCall.exn)
    (hr : (ensure_connected envr sr).1 = true)
    (hrf : envr.setFloat = NativeCall.ret r) (hrnz : ¬ r = 0) :
    ((set_strip_b1 env s).1 = false ∧ (set_strip_b1 env s).2.loggedIn = false)
    ∧ ((get_string_param env s).1 = none
        ∧ (get_string_param env s).2.loggedIn = false)
    ∧ ((set_strip_b1 envr sr).1 = false
        ∧ (set_strip_b1 envr sr).2 = (ensure_connected envr sr).2)
    ∧ (∀ d : Bool, (ensure_connected env ⟨d, false⟩).2.loggedIn = true →
        env.login = NativeCall.ret 0 ∨ env.login = NativeCall.ret 1) := by
  refine ⟨?_, ?_, ?_, ?_⟩
  · simp [set_strip_b1, h, hsf]
  · simp [get_string_param, h, hgs]
  · simp [set_strip_b1, hr, hrf, hrnz]
  · intro d hd
    exact ensure_connected_login_required env ⟨d, false⟩ rfl hd

def c5EnvExn : VMEnv :=
  ⟨true, true, NativeCall.ret 0, NativeCall.exn, NativeCall.exn, ""⟩

/-- Witness for C5 (amended): with a live connection, an exception-raising
native call fails and clears `_logged_in`; a status-1 failure leaves the
connection untouched. -/
theorem C5_stale_marking_witness :
    (ensure_connected c5EnvExn ⟨true, true⟩).1 = true
    ∧ c5EnvExn.setFloat = NativeCall.exn
    ∧ c5EnvExn.getString = NativeCall.exn
    ∧ (ensure_connected c5EnvRet1 ⟨true, true⟩).1 = true
    ∧ c5EnvRet1.setFloat = NativeCall.ret 1
    ∧ ¬ (1 : Int) = 0
    ∧ (((set_strip_b1 c5EnvExn ⟨true, true⟩).1 = false
          ∧ (set_strip_b1 c5EnvExn ⟨true, true⟩).2.loggedIn = false)
       ∧ ((get_string_param c5EnvExn ⟨true, true⟩).1 = none
          ∧ (get_string_param c5EnvExn ⟨true, true⟩).2.loggedIn = false)
       ∧ ((set_strip_b1 c5EnvRet1 ⟨true, true⟩).1 = false
          ∧ (set_strip_b1 c5EnvRet1 ⟨true, true⟩).2 =
              (ensure_connected c5EnvRet1 ⟨true, true⟩).2)
       ∧ (∀ d : Bool, (ensure_connected c5EnvExn ⟨d, false⟩).2.loggedIn = true →
          c5EnvExn.login = NativeCall.ret 0 ∨ c5EnvExn.login = NativeCall.ret 1)) :=
  ⟨by decide, rfl, rfl, by decide, rfl, by decide,
   C5_stale_marking c5EnvExn c5EnvRet1 ⟨true, true⟩ ⟨true, true⟩ 1
     (by decide) rfl rfl (by decide) rfl (by decide)⟩

-- ===========================================================================
-- C6: VRAudioSwitcher._on_steamvr_change
-- ===========================================================================

/-- Embedding of `VRAudioSwitcher._on_steamvr_change`: returns the new user
mode, whether `_write_state` persisted it, and whether `_apply` was then
invoked (the second check reads the already-updated mode). -/
def on_steamvr_change (running : Bool) (mode : UserMode) :
    UserMode × Bool × Bool :=
  let m :=
    if running = false ∧ (mode = UserMode.VR ∨ mode = UserMode.SILENT_VR)
    then (UserMode.AUTO, true) else (mode, false)
  (m.1, m.2, decide (m.1 = UserMode.AUTO))

/-- C6: a presence-change notification reporting absence while the user mode
is VR or SilentVR sets the mode to Auto and persists it (synchronously,
hence before the next enforcement tick); modes Desktop and Auto are left
unchanged by a presence drop. -/
theorem C6_presence_drop_fallback :
    (on_steamvr_change false UserMode.VR).1 = UserMode.AUTO
    ∧ (on_steamvr_change false UserMode.VR).2.1 = true
    ∧ (on_steamvr_change false UserMode.SILENT_VR).1 = UserMode.AUTO
    ∧ (on_steamvr_change false UserMode.SILENT_VR).2.1 = true
    ∧ (on_steamvr_change false UserMode.DESKTOP).1 = UserMode.DESKTOP
    ∧ (on_steamvr_change false UserMode.AUTO).1 = UserMode.AUTO := by
  decide

-- ===========================================================================
-- C9: VRAudioSwitcher._apply
-- ===========================================================================

/-- Mutable fields of `VRAudioSwitcher` that `_apply` reads and writes. -/
structure ApplyState where
  user_mode : UserMode
  current_output : Option AudioOutput
  mic_enabled : Bool
  confirmed : Bool
deriving DecidableEq, Repr

/-- External-call outcomes during one `_apply` run: VR presence as seen by
the detector, the result of `audio.switch_to`, the result of
`vm.set_strip_b1`, and the configured `music_strip` index. -/
structure ApplyEnv where
  vrPresent : Bool
  switch_ok : Bool
  strip_ok : Bool
  music_strip : Int
deriving DecidableEq, Repr

/-- External side effects `_apply` can issue. -/
inductive ExtAction where
  | switchTo (o : AudioOutput)
  | setStripB1 (strip : Int) (enabled : Bool)
  | setParam (p : String) (v : Int)
deriving DecidableEq, Repr

/-- Embedding of `VRAudioSwitcher._apply` (the tray-icon update is pure UI
and is omitted): returns the new state and the external commands issued. -/
def apply_step (env : ApplyEnv) (force : Bool) (s : ApplyState) :
    ApplyState × List ExtAction :=
  let desired := desiredOutput s.user_mode env.vrPresent
  let desired_mic := desiredMic s.user_mode
  let c1 :=
    if force = true ∨ some desired ≠ s.current_output ∨ s.confirmed = false then
      if env.switch_ok then
        ({ s with current_output := some desired, confirmed := true },
         [ExtAction.switchTo desired])
      else ({ s with confirmed := false }, [ExtAction.switchTo desired])
    else (s, [])
  let c2 :=
    if desired_mic ≠ c1.1.mic_enabled ∨ force = true then
      if env.strip_ok then
        ({ c1.1 with mic_enabled := desired_mic },
         [ExtAction.setStripB1 env.music_strip desired_mic])
      else (c1.1, [ExtAction.setStripB1 env.music_strip desired_mic])
    else (c1.1, [])
  let c3 : List ExtAction :=
    if force = true then
      [ExtAction.setParam "Strip[0].B1" 1, ExtAction.setParam "Strip[3].B2" 1]
    else []
  (c2.1, c1.2 ++ c2.2 ++ c3)

/-- C9: an unforced `_apply` call where the desired output equals the last
applied output, the routing is confirmed, and the desired mic flag equals
the recorded mic state issues no routing-utility command and no engine
parameter write, and leaves the state unchanged. -/
theorem C9_apply_noop (env : ApplyEnv) (s : ApplyState)
    (h1 : s.current_output = some (desiredOutput s.user_mode env.vrPresent))
    (h2 : s.confirmed = true)
    (h3 : s.mic_enabled = desiredMic s.user_mode) :
    apply_step env false s = (s, []) := by
  simp [apply_step, h1, h2, h3]

def c9State : ApplyState := ⟨UserMode.AUTO, some AudioOutput.DESKTOP, false, true⟩

def c9Env : ApplyEnv := ⟨false, true, true, 3⟩

/-- Witness for C9: in Auto mode with no VR present, desktop output already
applied and confirmed, mic flag off, an unforced `_apply` is a no-op. -/
theorem C9_apply_noop_witness :
    c9State.current_output = some (desiredOutput c9State.user_mode c9Env.vrPresent)
    ∧ c9State.confirmed = true
    ∧ c9State.mic_enabled = desiredMic c9State.user_mode
    ∧ apply_step c9Env false c9State = (c9State, []) :=
  ⟨by decide, rfl, by decide,
   C9_apply_noop c9Env c9State (by decide) rfl (by decide)⟩

-- ===========================================================================
-- C8: startup restore of persisted files (main, lines 985-1032)
-- ===========================================================================

/-- JSON values as `json.load` can return them. -/
inductive JsonVal where
  | obj (entries : List (String × JsonVal))
  | arr (elems : List JsonVal)
  | str (s : String)
  | num (n : Int)
  | bool (b : Bool)
  | null

/-- Content of a persisted file: absent, present but failing `json.load`
(an empty file or invalid JSON text — the exception is caught), or parsed
to a JSON value. -/
inductive FileContent where
  | absent
  | unreadable
  | parsed (j : JsonVal)

/-- Hard-coded `VM_DEFAULTS` from `main`. -/
def VM_DEFAULTS : List (String × JsonVal) :=
  [("Strip[3].Gain", JsonVal.num 0), ("Bus[3].Gain", JsonVal.num 0),
   ("Bus[4].Gain", JsonVal.num 0), ("Strip[0].Gain", JsonVal.num 0),
   ("Strip[3].eqgain1", JsonVal.num 0), ("Strip[3].eqgain2", JsonVal.num 0),
   ("Strip[3].eqgain3", JsonVal.num 0)]

/-- Python dict item assignment `m[k] = v` on a string-keyed mapping. -/
def setKey (m : List (String × JsonVal)) (k : String) (v : JsonVal) :
    List (String × JsonVal) :=
  if m.any (fun e => e.1 = k) then
    m.map (fun e => if e.1 = k then (k, v) else e)
  else m ++ [(k, v)]

/-- Routing-flag assignments `main` performs unconditionally on `vm_params`
after loading it (`Strip[0].B1`, `Strip[3].B2`, `Strip[0].A1`,
`Strip[3].A1`). -/
def forceRoutingFlags (m : List (String × JsonVal)) : List (String × JsonVal) :=
  setKey (setKey (setKey (setKey m "Strip[0].B1" (JsonVal.num 1))
    "Strip[3].B2" (JsonVal.num 1)) "Strip[0].A1" (JsonVal.num 0))
    "Strip[3].A1" (JsonVal.num 0)

/-- Startup handling of vm_devices.json and vm_state.json in `main`:
a missing or unparseable devices file leaves `vm_devices = {}` and a missing
or unparseable state file leaves `vm_params = dict(VM_DEFAULTS)` (the read
exceptions are caught); but a file that parses to a non-object JSON value
reaches `vm_devices.items()` resp. the `vm_params[...] = 1.0` item
assignments and raises an uncaught error (modelled as `Except.error`),
aborting startup. On success, returns the device assignments to restore and
the parameter snapshot with the routing flags forced. -/
def startup_restore (devContent stateContent : FileContent) :
    Except String (List (String × JsonVal) × List (String × JsonVal)) :=
  let devJson : JsonVal :=
    match devContent with
    | FileContent.parsed j => j
    | _ => JsonVal.obj []
  match devJson with
  | JsonVal.obj devs =>
      let stJson : JsonVal :=
        match stateContent with
        | FileContent.parsed j => j
        | _ => JsonVal.obj VM_DEFAULTS
      match stJson with
      | JsonVal.obj params => Except.ok (devs, forceRoutingFlags params)
      | _ => Except.error "TypeError: vm_params item assignment"
  | _ => Except.error "AttributeError: vm_devices items"

/-- C8 claims startup tolerates absent, empty, or malformed persisted files.
The code tolerates absence and content that fails `json.load` (defaults are
substituted), but a persisted file containing a valid-JSON non-object value
— e.g. the text `[]` — crashes startup with an uncaught TypeError (state
file) or AttributeError (devices file): a code bug relative to the stated
never-fatal intent (the code's own handler logs "using defaults"). -/
theorem C8_startup_restore_eval :
    startup_restore FileContent.absent (FileContent.parsed (JsonVal.arr [])) =
      Except.error "TypeError: vm_params item assignment"
    ∧ startup_restore FileContent.absent FileContent.unreadable =
      Except.ok ([], forceRoutingFlags VM_DEFAULTS)
    ∧ startup_restore FileContent.absent FileContent.absent =
      Except.ok ([], forceRoutingFlags VM_DEFAULTS)
    ∧ startup_restore (FileContent.parsed (JsonVal.arr [])) FileContent.absent =
      Except.error "AttributeError: vm_devices items" :=
  ⟨rfl, rfl, rfl, rfl⟩
